import Mathlib

/-!
# Verification of the FastFuels SDK treelist client

A shallow embedding of `src/fastfuels_sdk/treelists.py` (and the status
polling loops of `src/tests/test_fuelgrid.py`). HTTP transport is modelled
as a stub function from requests to responses; each client operation
returns the list of requests it issued together with its Python-level
outcome (a value, or a raised exception).
-/

/-- Decoded JSON values, as returned by `response.json()`. Numbers are
modelled as integers (no claim inspects numeric content). Objects are
ordered association lists, matching Python 3.7+ dict insertion order. -/
inductive Json where
  | null : Json
  | bool (b : Bool) : Json
  | num (n : Int) : Json
  | str (s : String) : Json
  | arr (xs : List Json) : Json
  | obj (kvs : List (String × Json)) : Json

/-- Python exceptions raised by the client code. -/
inductive PyError where
  | httpError (body : Json)
  | valueError (msg : String)
  | typeError (msg : String)
  | attributeError (msg : String)
  | keyError (key : String)

/-- A structured time value, the result of `datetime.fromisoformat`. -/
structure PyDateTime where
  year : Nat
  month : Nat
  day : Nat
  hour : Nat
  minute : Nat
  second : Nat
  deriving Repr, DecidableEq

/-- Numeric value of a run of ASCII digits. -/
def digitsToNat (cs : List Char) : Nat :=
  cs.foldl (fun acc c => acc * 10 + (c.toNat - 48)) 0

/-- `datetime.fromisoformat`: parses `YYYY-MM-DD` or
`YYYY-MM-DD[T ]HH:MM:SS` into a structured time value; `none` models the
`ValueError` raised on any other text. -/
def datetime_fromisoformat (s : String) : Option PyDateTime :=
  match s.toList with
  | [y1, y2, y3, y4, '-', m1, m2, '-', d1, d2] =>
      if [y1, y2, y3, y4, m1, m2, d1, d2].all Char.isDigit then
        let y := digitsToNat [y1, y2, y3, y4]
        let mo := digitsToNat [m1, m2]
        let d := digitsToNat [d1, d2]
        if 1 ≤ mo ∧ mo ≤ 12 ∧ 1 ≤ d ∧ d ≤ 31 then
          some ⟨y, mo, d, 0, 0, 0⟩
        else none
      else none
  | [y1, y2, y3, y4, '-', m1, m2, '-', d1, d2, sep,
     h1, h2, ':', mi1, mi2, ':', s1, s2] =>
      if (sep = 'T' ∨ sep = ' ') ∧
          [y1, y2, y3, y4, m1, m2, d1, d2, h1, h2, mi1, mi2, s1, s2].all
            Char.isDigit then
        let y := digitsToNat [y1, y2, y3, y4]
        let mo := digitsToNat [m1, m2]
        let d := digitsToNat [d1, d2]
        let h := digitsToNat [h1, h2]
        let mi := digitsToNat [mi1, mi2]
        let sec := digitsToNat [s1, s2]
        if 1 ≤ mo ∧ mo ≤ 12 ∧ 1 ≤ d ∧ d ≤ 31 ∧ h ≤ 23 ∧ mi ≤ 59 ∧ sec ≤ 59
        then some ⟨y, mo, d, h, mi, sec⟩
        else none
      else none
  | _ => none

/-- The keyword parameter names of `Treelist.__init__`, in declaration
order. All ten are required positional-or-keyword parameters with no
default values. -/
def treelistFields : List String :=
  ["id", "name", "description", "method", "dataset_id", "status",
   "created_on", "summary", "fuelgrids", "version"]

/-- The in-memory record built by `Treelist.__init__`. Python stores the
passed values unchecked (annotations are not enforced), except
`created_on`, which is converted by `datetime.fromisoformat`. -/
structure Treelist where
  id : Json
  name : Json
  description : Json
  method : Json
  dataset_id : Json
  status : Json
  created_on : PyDateTime
  summary : Json
  fuelgrids : Json
  version : Json

/-- Field of a kwargs dict, unreachable default once presence of the key
has been checked. -/
def kwarg (kvs : List (String × Json)) (k : String) : Json :=
  (kvs.lookup k).getD Json.null

/-- `Treelist(**kvs)`: Python keyword binding against `Treelist.__init__`.
An unknown key raises TypeError (unexpected keyword argument); a missing
parameter raises TypeError (missing required argument); then the body runs,
where `datetime.fromisoformat` raises TypeError on a non-string
`created_on` and ValueError on a string that is not ISO-8601. -/
def Treelist.ofKwargs (kvs : List (String × Json)) : Except PyError Treelist :=
  match (kvs.map Prod.fst).find? (fun k => !treelistFields.contains k) with
  | some k =>
      .error (.typeError ("__init__ got an unexpected keyword argument " ++ k))
  | none =>
      match treelistFields.find? (fun k => !(kvs.map Prod.fst).contains k) with
      | some k =>
          .error (.typeError ("__init__ missing required argument " ++ k))
      | none =>
          match kvs.lookup "created_on" with
          | some (.str s) =>
              match datetime_fromisoformat s with
              | some dt =>
                  .ok { id := kwarg kvs "id", name := kwarg kvs "name",
                        description := kwarg kvs "description",
                        method := kwarg kvs "method",
                        dataset_id := kwarg kvs "dataset_id",
                        status := kwarg kvs "status", created_on := dt,
                        summary := kwarg kvs "summary",
                        fuelgrids := kwarg kvs "fuelgrids",
                        version := kwarg kvs "version" }
              | none => .error (.valueError ("Invalid isoformat string " ++ s))
          | some _ => .error (.typeError "fromisoformat argument must be str")
          | none => .error (.typeError "unreachable, created_on is present")

/-- `Treelist(**response.json())`: the response body must decode to a JSON
object (a Python mapping) for `**` expansion. -/
def decodeTreelist : Json → Except PyError Treelist
  | .obj kvs => Treelist.ofKwargs kvs
  | _ => .error (.typeError "argument after ** must be a mapping")

/-- An HTTP request issued through the session: method, full URL, the
`data=` payload if any, and the `files=` multipart content if any. -/
structure Request where
  method : String
  url : String
  data : Option String := none
  files : Option String := none
  deriving Repr, DecidableEq

/-- An HTTP response: status code and decoded JSON body (what
`response.json()` returns). -/
structure Response where
  status_code : Nat
  body : Json

/-- Modelled from the spec: the base URL string `API_URL` is supplied by
the package root (`from fastfuels_sdk import SESSION, API_URL`), which is
not under src/; the spec treats it as an externally supplied base URL
string. Its concrete value is irrelevant to every claim. -/
def API_URL : String := "https://fastfuels-api"

/-- `json.dumps` on a dict whose values are all strings (the only shape
the source serializes), with the Python default separators. -/
def json_dumps_obj (kvs : List (String × String)) : String :=
  "\x7b" ++
    String.intercalate ", "
      (kvs.map (fun kv => "\"" ++ kv.1 ++ "\": \"" ++ kv.2 ++ "\"")) ++
  "\x7d"

/-- A pandas DataFrame, reduced to what the source observes of it: named
columns and string-rendered rows. -/
structure DataFrame where
  columns : List String
  rows : List (List String)

/-- `DataFrame.to_csv(path, index=False)`: header line then one line per
row, comma separated, no index column. -/
def DataFrame.to_csv (df : DataFrame) : String :=
  String.intercalate "\n"
    (String.intercalate "," df.columns :: df.rows.map (String.intercalate ","))
  ++ "\n"

/-- `create_treelist`: POST /treelists with a JSON payload; 201 is the
success code; any other status raises HTTPError with the decoded body. -/
def create_treelist (session : Request → Response) (dataset_id : String)
    (name : String) (description : String) (method : String := "random") :
    List Request × Except PyError Treelist :=
  let payload := json_dumps_obj
    [("dataset_id", dataset_id), ("name", name),
     ("description", description), ("method", method)]
  let req : Request :=
    { method := "POST", url := API_URL ++ "/treelists", data := some payload }
  let response := session req
  if response.status_code ≠ 201 then
    ([req], .error (.httpError response.body))
  else
    ([req], decodeTreelist response.body)

/-- `get_treelist`: validates `units` locally (ValueError, no request),
then GET /treelists/\x7bid\x7d?units=... with success code 200. -/
def get_treelist (session : Request → Response) (treelist_id : String)
    (units : String := "metric") : List Request × Except PyError Treelist :=
  if units ∉ ["metric", "imperial"] then
    ([], .error (.valueError "units must be metric or imperial"))
  else
    let req : Request :=
      { method := "GET",
        url := API_URL ++ "/treelists/" ++ treelist_id ++ "?units=" ++ units }
    let response := session req
    if response.status_code ≠ 200 then
      ([req], .error (.httpError response.body))
    else
      ([req], decodeTreelist response.body)

/-- The list comprehension `[Treelist(**t) for t in xs]`: decodes the
elements left to right, propagating the first raised exception. -/
def mapDecode : List Json → Except PyError (List Treelist)
  | [] => .ok []
  | x :: xs =>
      match decodeTreelist x with
      | .error e => .error e
      | .ok t =>
          match mapDecode xs with
          | .error e => .error e
          | .ok ts => .ok (t :: ts)

/-- `response.json()["treelists"]` followed by the list comprehension
`[Treelist(**t) for t in ...]`. -/
def decodeTreelists (body : Json) : Except PyError (List Treelist) :=
  match body with
  | .obj kvs =>
      match kvs.lookup "treelists" with
      | some (.arr xs) => mapDecode xs
      | some _ => .error (.typeError "treelists value is not a list of mappings")
      | none => .error (.keyError "treelists")
  | _ => .error (.typeError "response body is not subscriptable by key")

/-- `list_treelists`: GET /treelists, with a `dataset_id` query parameter
when the argument is truthy (Python `if dataset_id:`); success code 200. -/
def list_treelists (session : Request → Response)
    (dataset_id : Option String := none) :
    List Request × Except PyError (List Treelist) :=
  let url :=
    match dataset_id with
    | some d =>
        if d ≠ "" then API_URL ++ "/treelists?dataset_id=" ++ d
        else API_URL ++ "/treelists"
    | none => API_URL ++ "/treelists"
  let req : Request := { method := "GET", url := url }
  let response := session req
  if response.status_code ≠ 200 then
    ([req], .error (.httpError response.body))
  else
    ([req], decodeTreelists response.body)

/-- The `payload_dict` built by `update_treelist`: each of the two fields
enters the payload only when it is truthy (`if name:` / `if description:`,
so a supplied empty string is left out). -/
def update_payload_dict (name description : Option String) :
    List (String × String) :=
  (match name with
   | some n => if n ≠ "" then [("name", n)] else []
   | none => []) ++
  (match description with
   | some d => if d ≠ "" then [("description", d)] else []
   | none => [])

/-- `update_treelist`: raises ValueError locally when both `name` and
`description` are None (no request); otherwise PATCH with a payload that
includes each field only when it is truthy; success code 200. -/
def update_treelist (session : Request → Response) (treelist_id : String)
    (name : Option String := none) (description : Option String := none) :
    List Request × Except PyError Treelist :=
  if name.isNone ∧ description.isNone then
    ([], .error (.valueError "name or description must be provided"))
  else
    let payload := json_dumps_obj (update_payload_dict name description)
    let req : Request :=
      { method := "PATCH", url := API_URL ++ "/treelists/" ++ treelist_id,
        data := some payload }
    let response := session req
    if response.status_code ≠ 200 then
      ([req], .error (.httpError response.body))
    else
      ([req], decodeTreelist response.body)

/-- `update_treelist_data`: raises ValueError when neither `filename` nor
`data` is given; otherwise runs `data.to_csv(...)` unconditionally — when
`data` is None (filename-only call) this raises AttributeError before any
request is sent; with a DataFrame it PUTs the CSV as a multipart file. -/
def update_treelist_data (session : Request → Response) (treelist_id : String)
    (filename : Option String := none) (data : Option DataFrame := none) :
    List Request × Except PyError Treelist :=
  if filename.isNone ∧ data.isNone then
    ([], .error (.valueError "filename or data must be provided"))
  else
    match data with
    | none =>
        ([], .error (.attributeError "NoneType object has no attribute to_csv"))
    | some df =>
        let req : Request :=
          { method := "PUT",
            url := API_URL ++ "/treelists/" ++ treelist_id ++ "/data",
            files := some df.to_csv }
        let response := session req
        if response.status_code ≠ 200 then
          ([req], .error (.httpError response.body))
        else
          ([req], decodeTreelist response.body)

/-- `delete_treelist`: DELETE /treelists/\x7bid\x7d; the `dataset_id`
parameter is accepted and documented but never read by the body; success
code 200, returning the decoded remaining treelists. -/
def delete_treelist (session : Request → Response) (treelist_id : String)
    (dataset_id : Option String := none) :
    List Request × Except PyError (List Treelist) :=
  let req : Request :=
    { method := "DELETE", url := API_URL ++ "/treelists/" ++ treelist_id }
  let response := session req
  if response.status_code ≠ 200 then
    ([req], .error (.httpError response.body))
  else
    ([req], decodeTreelists response.body)

/-- The status polling loops of `src/tests/test_fuelgrid.py`
(`fuelgrid = get_fuelgrid(id)` then
`while fuelgrid.status != "Finished": fuelgrid = get_fuelgrid(id); sleep(2)`).
`stub n` is the status field returned by the (n+1)-th get call; `calls`
counts get calls issued so far; `current` is the status of the record in
hand. The Python loop is unbounded, so `fuel` bounds the number of further
iterations: `some (calls, status)` means the loop exited after `calls` get
calls holding a record with that status; `none` means the loop was still
running when `fuel` ran out. -/
def poll_fuelgrid (stub : Nat → String) :
    Nat → Nat → String → Option (Nat × String)
  | fuel + 1, calls, current =>
      if current = "Finished" then some (calls, current)
      else poll_fuelgrid stub fuel (calls + 1) (stub calls)
  | 0, calls, current =>
      if current = "Finished" then some (calls, current) else none

/-- The whole polling protocol: one initial get, then the while loop. -/
def poll_until_finished (stub : Nat → String) (fuel : Nat) :
    Option (Nat × String) :=
  poll_fuelgrid stub fuel 1 (stub 0)

/-- Server stub returning the status sequence [Pending, Pending, Finished,
Finished, ...]. -/
def statusSeqGood : Nat → String
  | 0 => "Pending"
  | 1 => "Pending"
  | _ => "Finished"

/-- Server stub returning the status sequence [Pending, Error, Error, ...]:
the resource reached the terminal Error state on the second read and stays
there. -/
def statusSeqErr : Nat → String
  | 0 => "Pending"
  | _ => "Error"

/-- A complete, well-formed treelist JSON object as the server returns it,
parameterized by treelist id and owning dataset id. -/
def sampleTreelistJson (tid did : String) : List (String × Json) :=
  [("id", .str tid), ("name", .str "n"), ("description", .str "d"),
   ("method", .str "random"), ("dataset_id", .str did),
   ("status", .str "Finished"),
   ("created_on", .str "2023-04-07T12:30:05"), ("summary", .obj []),
   ("fuelgrids", .arr [.str "fg-1"]), ("version", .str "v1")]

/-- The record `Treelist(**sampleTreelistJson tid did)` constructs. -/
def sampleTreelist (tid did : String) : Treelist :=
  { id := .str tid, name := .str "n", description := .str "d",
    method := .str "random", dataset_id := .str did,
    status := .str "Finished", created_on := ⟨2023, 4, 7, 12, 30, 5⟩,
    summary := .obj [], fuelgrids := .arr [.str "fg-1"],
    version := .str "v1" }

/-- A transport stub answering every request with the same response. -/
def constSession (resp : Response) : Request → Response := fun _ => resp

/-- A transport stub answering every request with status 500 and a JSON
error body. -/
def err500Session : Request → Response :=
  constSession ⟨500, .obj [("error", .str "boom")]⟩

/-- A transport stub whose remaining-treelists body mixes two datasets:
one remaining treelist owned by ds-1 and one owned by ds-2. -/
def twoDatasetSession : Request → Response :=
  constSession ⟨200, .obj [("treelists",
    .arr [.obj (sampleTreelistJson "tl-2" "ds-1"),
          .obj (sampleTreelistJson "tl-3" "ds-2")])]⟩

/-- `delete_all_treelists`: DELETE /treelists, with a `dataset_id` query
parameter when truthy; success code 200, returning remaining treelists. -/
def delete_all_treelists (session : Request → Response)
    (dataset_id : Option String := none) :
    List Request × Except PyError (List Treelist) :=
  let url :=
    match dataset_id with
    | some d =>
        if d ≠ "" then API_URL ++ "/treelists?dataset_id=" ++ d
        else API_URL ++ "/treelists"
    | none => API_URL ++ "/treelists"
  let req : Request := { method := "DELETE", url := url }
  let response := session req
  if response.status_code ≠ 200 then
    ([req], .error (.httpError response.body))
  else
    ([req], decodeTreelists response.body)

/-- One step of the polling loop when the record in hand is not Finished. -/
theorem poll_fuelgrid_step (stub : Nat → String) (fuel calls : Nat)
    (current : String) (h : current ≠ "Finished") :
    poll_fuelgrid stub (fuel + 1) calls current =
      poll_fuelgrid stub fuel (calls + 1) (stub calls) := by
  rw [poll_fuelgrid, if_neg h]

/-- The loop exits immediately, spending no fuel, once the record in hand
is Finished. -/
theorem poll_fuelgrid_finished (stub : Nat → String) (fuel calls : Nat) :
    poll_fuelgrid stub fuel calls "Finished" = some (calls, "Finished") := by
  cases fuel <;> rw [poll_fuelgrid] <;> simp

/-- If the stub never reports Finished, the loop consumes all its fuel:
the Python original never exits. -/
theorem poll_fuelgrid_stuck (stub : Nat → String)
    (hstub : ∀ n, stub n ≠ "Finished") :
    ∀ (fuel calls : Nat) (current : String), current ≠ "Finished" →
      poll_fuelgrid stub fuel calls current = none := by
  intro fuel
  induction fuel with
  | zero =>
      intro calls current hcur
      rw [poll_fuelgrid, if_neg hcur]
  | succ f ih =>
      intro calls current hcur
      rw [poll_fuelgrid_step stub f calls current hcur]
      exact ih (calls + 1) (stub calls) (hstub calls)

/-- The Pending-then-Error stub never reports Finished. -/
theorem statusSeqErr_never_finished : ∀ n, statusSeqErr n ≠ "Finished" := by
  intro n
  cases n with
  | zero => decide
  | succ m =>
      show "Error" ≠ "Finished"
      decide

/-- C1: code bug. `update_treelist_data(id, filename=...)` with no
DataFrame passes the local guard (one of the two arguments is supplied)
and then unconditionally evaluates `data.to_csv(...)`, which raises
AttributeError on None before any HTTP request is issued — the `filename`
argument is never read. The claim says a filename-only call uploads the
file and succeeds on a 200 response; the code can never reach the upload
in that case. -/
theorem update_treelist_data_filename_only_raises :
    ∀ (session : Request → Response) (treelist_id fn : String),
      update_treelist_data session treelist_id (some fn) none =
        ([], .error (.attributeError "NoneType object has no attribute to_csv")) :=
  fun _ _ _ => rfl

/-- C2: code bug. `delete_treelist` accepts and documents a `dataset_id`
filter but its body never reads it: the issued request and the returned
value are identical with and without the filter, and with the filter set
to ds-1 the decoded result still contains a treelist owned by ds-2. -/
theorem delete_treelist_ignores_dataset_id_filter :
    (∀ (session : Request → Response) (treelist_id did : String),
        delete_treelist session treelist_id (some did) =
          delete_treelist session treelist_id none) ∧
    delete_treelist twoDatasetSession "tl-1" (some "ds-1") =
      ([{ method := "DELETE", url := API_URL ++ "/treelists/" ++ "tl-1" }],
       .ok [sampleTreelist "tl-2" "ds-1", sampleTreelist "tl-3" "ds-2"]) :=
  ⟨fun _ _ _ => rfl, rfl⟩

/-- C4 counterexample: with a stub whose reads go [Pending, Error, Error,
...], the polling loop has not returned after 2 get calls — even granted
fuel for 10 loop iterations it is still running, because the loop guard
tests only for the Finished status. The claim says it terminates after 2
calls, returning the Error record without throwing. -/
theorem polling_loop_error_still_running_after_two_calls :
    poll_until_finished statusSeqErr 10 = none := by decide

/-- C4 amended: given the status sequence [Pending, Pending, Finished] the
polling loop issues exactly 3 get calls and returns the Finished record
(for every fuel bound that lets it run that far); but Error is not
terminal for this loop: given [Pending, Error, Error, ...] it never exits,
whatever the fuel bound. -/
theorem polling_loop_terminates_only_on_finished :
    poll_until_finished statusSeqGood 2 = some (3, "Finished") ∧
    (∀ extra, poll_until_finished statusSeqGood (extra + 2) =
        some (3, "Finished")) ∧
    (∀ fuel, poll_until_finished statusSeqErr fuel = none) := by
  refine ⟨by decide, fun extra => ?_, fun fuel => ?_⟩
  · show poll_fuelgrid statusSeqGood (extra + 2) 1 (statusSeqGood 0) = _
    have h0 : statusSeqGood 0 = "Pending" := rfl
    have h1 : statusSeqGood 1 = "Pending" := rfl
    have h2 : statusSeqGood 2 = "Finished" := rfl
    rw [h0, poll_fuelgrid_step _ _ _ _ (by decide), h1,
        poll_fuelgrid_step _ _ _ _ (by decide), h2, poll_fuelgrid_finished]
  · show poll_fuelgrid statusSeqErr fuel 1 (statusSeqErr 0) = none
    exact poll_fuelgrid_stuck statusSeqErr statusSeqErr_never_finished
      fuel 1 (statusSeqErr 0) (statusSeqErr_never_finished 0)

/-- C10: the zero-fields guard of `update_treelist` tests only for None:
with `name=""` and `description=""` no ValueError is raised — a PATCH
request is issued (the guard branch would have issued none) and its JSON
payload is the empty object, because each field enters the payload only
when truthy. The second conjunct shows the mechanism: an empty name with
a non-empty description yields a payload holding only the description. -/
theorem update_treelist_empty_strings_bypass_guard :
    ∀ (session : Request → Response) (treelist_id : String),
      (update_treelist session treelist_id (some "") (some "")).1 =
        [{ method := "PATCH", url := API_URL ++ "/treelists/" ++ treelist_id,
           data := some "\x7b\x7d" }] ∧
      (update_treelist session treelist_id (some "") (some "x")).1 =
        [{ method := "PATCH", url := API_URL ++ "/treelists/" ++ treelist_id,
           data := some "\x7b\"description\": \"x\"\x7d" }] := by
  intro session treelist_id
  have hnil : String.intercalate ", " [] = "" := rfl
  have hone : String.intercalate ", " ["\"description\": \"x\""] =
      "\"description\": \"x\"" := rfl
  constructor <;>
    simp [update_treelist, update_payload_dict, json_dumps_obj,
      apply_ite Prod.fst, hnil, hone]

/-- C6: for units outside the fixed set, `get_treelist` raises ValueError
locally with no HTTP request issued; for metric or imperial it issues
exactly one GET request carrying that units query parameter. -/
theorem get_treelist_units_validation :
    ∀ (session : Request → Response) (treelist_id units : String),
      (units ≠ "metric" ∧ units ≠ "imperial" →
        get_treelist session treelist_id units =
          ([], .error (.valueError "units must be metric or imperial"))) ∧
      (units = "metric" ∨ units = "imperial" →
        (get_treelist session treelist_id units).1 =
          [{ method := "GET",
             url := API_URL ++ "/treelists/" ++ treelist_id ++
               "?units=" ++ units }]) := by
  intro session treelist_id units
  constructor
  · intro h
    have hmem : units ∉ ["metric", "imperial"] := by
      simp [h.1, h.2]
    simp only [get_treelist]
    rw [if_pos hmem]
  · intro h
    have hmem : ¬units ∉ ["metric", "imperial"] := by
      rcases h with h | h <;> simp [h]
    simp only [get_treelist]
    rw [if_neg hmem]
    simp [apply_ite Prod.fst]

/-- C6 witness: a bogus unit fails locally with zero requests; metric
issues the single GET request with the units parameter. -/
theorem get_treelist_units_validation_witness :
    get_treelist err500Session "tl-1" "bogus" =
      ([], .error (.valueError "units must be metric or imperial")) ∧
    (get_treelist err500Session "tl-1" "metric").1 =
      [{ method := "GET",
         url := API_URL ++ "/treelists/" ++ "tl-1" ++ "?units=" ++ "metric" }] :=
  ⟨(get_treelist_units_validation err500Session "tl-1" "bogus").1
      ⟨by decide, by decide⟩,
   (get_treelist_units_validation err500Session "tl-1" "metric").2 (Or.inl rfl)⟩

/-- C9: client-side decoding is deterministic — two constructions from the
same decoded JSON object yield records equal on every field. -/
theorem treelist_decoding_deterministic :
    ∀ (kvs : List (String × Json)) (t1 t2 : Treelist),
      Treelist.ofKwargs kvs = .ok t1 → Treelist.ofKwargs kvs = .ok t2 →
      t1.id = t2.id ∧ t1.name = t2.name ∧ t1.description = t2.description ∧
      t1.method = t2.method ∧ t1.dataset_id = t2.dataset_id ∧
      t1.status = t2.status ∧ t1.created_on = t2.created_on ∧
      t1.summary = t2.summary ∧ t1.fuelgrids = t2.fuelgrids ∧
      t1.version = t2.version := by
  intro kvs t1 t2 h1 h2
  rw [h1] at h2
  injection h2 with h
  subst h
  exact ⟨rfl, rfl, rfl, rfl, rfl, rfl, rfl, rfl, rfl, rfl⟩

/-- C9 witness: both decodings of the sample treelist JSON object agree on
every field. -/
theorem treelist_decoding_deterministic_witness :
    (sampleTreelist "a" "b").id = (sampleTreelist "a" "b").id ∧
    (sampleTreelist "a" "b").name = (sampleTreelist "a" "b").name ∧
    (sampleTreelist "a" "b").description =
      (sampleTreelist "a" "b").description ∧
    (sampleTreelist "a" "b").method = (sampleTreelist "a" "b").method ∧
    (sampleTreelist "a" "b").dataset_id =
      (sampleTreelist "a" "b").dataset_id ∧
    (sampleTreelist "a" "b").status = (sampleTreelist "a" "b").status ∧
    (sampleTreelist "a" "b").created_on =
      (sampleTreelist "a" "b").created_on ∧
    (sampleTreelist "a" "b").summary = (sampleTreelist "a" "b").summary ∧
    (sampleTreelist "a" "b").fuelgrids =
      (sampleTreelist "a" "b").fuelgrids ∧
    (sampleTreelist "a" "b").version = (sampleTreelist "a" "b").version :=
  treelist_decoding_deterministic (sampleTreelistJson "a" "b")
    (sampleTreelist "a" "b") (sampleTreelist "a" "b") rfl rfl

/-- C7: with zero mutable fields supplied, `update_treelist` raises
ValueError locally and issues no request; with at least one supplied it
issues exactly one PATCH request to /treelists/id and raises HTTPError
with the decoded body on any non-200 response. -/
theorem update_treelist_requires_mutable_field :
    ∀ (session : Request → Response) (treelist_id : String),
      (update_treelist session treelist_id none none =
        ([], .error (.valueError "name or description must be provided"))) ∧
      (∀ (name description : Option String),
        name.isSome ∨ description.isSome →
        ∃ req : Request, req.method = "PATCH" ∧
          req.url = API_URL ++ "/treelists/" ++ treelist_id ∧
          (update_treelist session treelist_id name description).1 = [req] ∧
          ((session req).status_code ≠ 200 →
            (update_treelist session treelist_id name description).2 =
              .error (.httpError (session req).body))) := by
  intro session treelist_id
  refine ⟨rfl, ?_⟩
  intro name description h
  have hguard : ¬(name.isNone ∧ description.isNone) := by
    cases name <;> cases description <;> simp_all
  refine ⟨{ method := "PATCH", url := API_URL ++ "/treelists/" ++ treelist_id,
            data := some (json_dumps_obj
              (update_payload_dict name description)) }, rfl, rfl, ?_, ?_⟩
  · simp only [update_treelist]
    rw [if_neg hguard]
    simp [apply_ite Prod.fst]
  · intro hst
    simp only [update_treelist]
    rw [if_neg hguard, if_pos hst]

/-- C7 witness: with no fields, ValueError and zero requests; with a name
supplied, the PATCH goes out and a 500 response surfaces as HTTPError
carrying the decoded error body. -/
theorem update_treelist_requires_mutable_field_witness :
    update_treelist err500Session "tl-1" none none =
      ([], .error (.valueError "name or description must be provided")) ∧
    (update_treelist err500Session "tl-1" (some "new") none).2 =
      .error (.httpError (Json.obj [("error", Json.str "boom")])) := by
  obtain ⟨h0, hrest⟩ := update_treelist_requires_mutable_field err500Session "tl-1"
  obtain ⟨req, -, -, -, herr⟩ := hrest (some "new") none (Or.inl rfl)
  refine ⟨h0, herr ?_⟩
  show (500 : Nat) ≠ 200
  decide

/-- C3 counterexample: construction is not lenient about the field set.
Adding one unknown extra field to an otherwise complete treelist object
makes `Treelist(**d)` raise TypeError instead of ignoring it, and
dropping the `version` field raises TypeError instead of defaulting it. -/
theorem treelist_init_extra_or_missing_field_fails :
    Treelist.ofKwargs
        (("extra", Json.null) :: sampleTreelistJson "tl-1" "ds-1") =
      .error (.typeError "__init__ got an unexpected keyword argument extra") ∧
    Treelist.ofKwargs ((sampleTreelistJson "tl-1" "ds-1").take 9) =
      .error (.typeError "__init__ missing required argument version") :=
  ⟨rfl, rfl⟩

/-- C3 amended: construction parses `created_on` from ISO-8601 text into a
structured time value and stores every other field as given (identifier
lists kept in order), with no further validation; but the field set is
exact, not optional: an unknown extra field raises TypeError, and a
missing field raises TypeError, rather than defaulting to empty/absent. -/
theorem treelist_init_exact_fields_contract :
    (∀ (v0 v1 v2 v3 v4 v5 v7 v8 v9 : Json) (s : String) (dt : PyDateTime),
      datetime_fromisoformat s = some dt →
      Treelist.ofKwargs
        [("id", v0), ("name", v1), ("description", v2), ("method", v3),
         ("dataset_id", v4), ("status", v5), ("created_on", .str s),
         ("summary", v7), ("fuelgrids", v8), ("version", v9)] =
        .ok { id := v0, name := v1, description := v2, method := v3,
              dataset_id := v4, status := v5, created_on := dt,
              summary := v7, fuelgrids := v8, version := v9 }) ∧
    (∀ (v : Json) (kvs : List (String × Json)),
      Treelist.ofKwargs (("extra", v) :: kvs) =
        .error (.typeError "__init__ got an unexpected keyword argument extra")) ∧
    (∀ (v0 v1 v2 v3 v4 v5 v7 v8 : Json) (s : String),
      Treelist.ofKwargs
        [("id", v0), ("name", v1), ("description", v2), ("method", v3),
         ("dataset_id", v4), ("status", v5), ("created_on", .str s),
         ("summary", v7), ("fuelgrids", v8)] =
        .error (.typeError "__init__ missing required argument version")) := by
  refine ⟨?_, fun v kvs => rfl, fun v0 v1 v2 v3 v4 v5 v7 v8 s => rfl⟩
  intro v0 v1 v2 v3 v4 v5 v7 v8 v9 s dt hdt
  have hstep : Treelist.ofKwargs
      [("id", v0), ("name", v1), ("description", v2), ("method", v3),
       ("dataset_id", v4), ("status", v5), ("created_on", .str s),
       ("summary", v7), ("fuelgrids", v8), ("version", v9)] =
      match datetime_fromisoformat s with
      | some d =>
          .ok { id := v0, name := v1, description := v2, method := v3,
                dataset_id := v4, status := v5, created_on := d,
                summary := v7, fuelgrids := v8, version := v9 }
      | none => .error (.valueError ("Invalid isoformat string " ++ s)) := rfl
  rw [hstep, hdt]

/-- C3 witness: a concrete complete object constructs successfully with
the parsed timestamp; the extra-field and missing-field cases raise. -/
theorem treelist_init_exact_fields_contract_witness :
    Treelist.ofKwargs
        [("id", .str "a"), ("name", .null), ("description", .null),
         ("method", .null), ("dataset_id", .null), ("status", .null),
         ("created_on", .str "2023-04-07"), ("summary", .null),
         ("fuelgrids", .arr [.str "f1", .str "f2"]), ("version", .null)] =
      .ok { id := .str "a", name := .null, description := .null,
            method := .null, dataset_id := .null, status := .null,
            created_on := ⟨2023, 4, 7, 0, 0, 0⟩, summary := .null,
            fuelgrids := .arr [.str "f1", .str "f2"], version := .null } ∧
    Treelist.ofKwargs (("extra", .null) :: sampleTreelistJson "x" "y") =
      .error (.typeError "__init__ got an unexpected keyword argument extra") :=
  ⟨treelist_init_exact_fields_contract.1 (.str "a") .null .null .null .null
      .null .null (.arr [.str "f1", .str "f2"]) .null "2023-04-07"
      ⟨2023, 4, 7, 0, 0, 0⟩ (by decide),
   treelist_init_exact_fields_contract.2.1 .null (sampleTreelistJson "x" "y")⟩

/-- When every element of the array decodes, the comprehension decodes
them all, in order. -/
theorem mapDecode_ok_of_decodable :
    ∀ (xs : List Json),
      (∀ x ∈ xs, ∃ t, decodeTreelist x = .ok t) →
      ∃ ts, mapDecode xs = .ok ts ∧
        List.Forall₂ (fun x t => decodeTreelist x = .ok t) xs ts := by
  intro xs
  induction xs with
  | nil => exact fun _ => ⟨[], rfl, List.Forall₂.nil⟩
  | cons x xs ih =>
      intro h
      obtain ⟨t, ht⟩ := h x (List.mem_cons_self x xs)
      obtain ⟨ts, hts, hall⟩ := ih fun y hy => h y (List.mem_cons_of_mem x hy)
      refine ⟨t :: ts, ?_, List.Forall₂.cons ht hall⟩
      simp only [mapDecode]
      rw [ht, hts]

/-- C8: on a 200 response whose body holds a treelists array, every
element of which decodes, `list_treelists` returns the decoded records,
one per array element in array order (no error raised); in particular an
empty array yields the empty sequence. -/
theorem list_treelists_decodes_array_elementwise :
    ∀ (resp : Response) (dataset_id : Option String)
      (kvs : List (String × Json)) (xs : List Json),
      resp.status_code = 200 → resp.body = .obj kvs →
      kvs.lookup "treelists" = some (.arr xs) →
      (∀ x ∈ xs, ∃ t, decodeTreelist x = .ok t) →
      ∃ ts, (list_treelists (constSession resp) dataset_id).2 = .ok ts ∧
        List.Forall₂ (fun x t => decodeTreelist x = .ok t) xs ts ∧
        ts.length = xs.length ∧ (xs = [] → ts = []) := by
  intro resp did kvs xs hst hbody hkey hdec
  obtain ⟨ts, hts, hall⟩ := mapDecode_ok_of_decodable xs hdec
  refine ⟨ts, ?_, hall, hall.length_eq.symm, ?_⟩
  · simp only [list_treelists, constSession, apply_ite Prod.snd]
    rw [hst, if_neg (by decide), hbody]
    simp only [decodeTreelists]
    rw [hkey]
    exact hts
  · intro hxs
    subst hxs
    cases hall
    rfl

/-- C8 witness: a 200 response with an empty treelists array yields the
empty sequence rather than an error. -/
theorem list_treelists_decodes_array_elementwise_witness :
    (list_treelists
        (constSession ⟨200, .obj [("treelists", .arr [])]⟩) none).2 =
      .ok [] := by
  obtain ⟨ts, hts, -, -, hnil⟩ :=
    list_treelists_decodes_array_elementwise
      ⟨200, .obj [("treelists", .arr [])]⟩ none
      [("treelists", .arr [])] [] rfl rfl rfl
      (by intro x hx; cases hx)
  rw [hts, hnil rfl]

/-- Constructing a Treelist never raises HTTPError: its own failures are
TypeError or ValueError only. -/
theorem ofKwargs_no_httpError (kvs : List (String × Json)) (b : Json) :
    Treelist.ofKwargs kvs ≠ .error (.httpError b) := by
  intro h
  unfold Treelist.ofKwargs at h
  repeat' split at h
  all_goals simp_all

/-- Decoding one JSON value into a Treelist never raises HTTPError. -/
theorem decodeTreelist_no_httpError (j b : Json) :
    decodeTreelist j ≠ .error (.httpError b) := by
  intro h
  cases j with
  | obj kvs => exact ofKwargs_no_httpError kvs b h
  | null => exact absurd h (by simp [decodeTreelist])
  | bool x => exact absurd h (by simp [decodeTreelist])
  | num x => exact absurd h (by simp [decodeTreelist])
  | str x => exact absurd h (by simp [decodeTreelist])
  | arr x => exact absurd h (by simp [decodeTreelist])

/-- The decoding comprehension never raises HTTPError. -/
theorem mapDecode_no_httpError :
    ∀ (xs : List Json) (b : Json), mapDecode xs ≠ .error (.httpError b) := by
  intro xs
  induction xs with
  | nil => intro b h; simp [mapDecode] at h
  | cons x xs ih =>
      intro b h
      simp only [mapDecode] at h
      cases hx : decodeTreelist x with
      | error e =>
          rw [hx] at h
          simp at h
          subst h
          exact decodeTreelist_no_httpError x b hx
      | ok t =>
          rw [hx] at h
          simp only [] at h
          cases hxs : mapDecode xs with
          | error e2 =>
              rw [hxs] at h
              simp at h
              subst h
              exact ih b hxs
          | ok ts =>
              rw [hxs] at h
              simp at h

/-- Decoding a remaining-treelists body never raises HTTPError. -/
theorem decodeTreelists_no_httpError (j b : Json) :
    decodeTreelists j ≠ .error (.httpError b) := by
  intro h
  cases j with
  | obj kvs =>
      simp only [decodeTreelists] at h
      cases hk : kvs.lookup "treelists" with
      | none => rw [hk] at h; exact absurd h (by simp)
      | some v =>
          rw [hk] at h
          cases v with
          | arr xs => exact mapDecode_no_httpError xs b h
          | null => exact absurd h (by simp)
          | bool x => exact absurd h (by simp)
          | num x => exact absurd h (by simp)
          | str x => exact absurd h (by simp)
          | obj x => exact absurd h (by simp)
  | null => exact absurd h (by simp [decodeTreelists])
  | bool x => exact absurd h (by simp [decodeTreelists])
  | num x => exact absurd h (by simp [decodeTreelists])
  | str x => exact absurd h (by simp [decodeTreelists])
  | arr x => exact absurd h (by simp [decodeTreelists])

/-- C5: every treelist operation issues exactly one request (never
retried), raises HTTPError carrying the decoded JSON error body exactly
when the response status differs from its documented success code (201
for create, 200 otherwise), and on the success code returns the decoded
resource(s); the two closing clauses show that decoding itself can never
produce an HTTPError, so HTTPError arises from the status check alone. -/
theorem treelist_operations_status_code_contract :
    (∀ (resp : Response) (d n de m : String),
      (create_treelist (constSession resp) d n de m).1.length = 1 ∧
      (resp.status_code ≠ 201 →
        (create_treelist (constSession resp) d n de m).2 =
          .error (.httpError resp.body)) ∧
      (resp.status_code = 201 →
        (create_treelist (constSession resp) d n de m).2 =
          decodeTreelist resp.body)) ∧
    (∀ (resp : Response) (tid units : String),
      units = "metric" ∨ units = "imperial" →
      (get_treelist (constSession resp) tid units).1.length = 1 ∧
      (resp.status_code ≠ 200 →
        (get_treelist (constSession resp) tid units).2 =
          .error (.httpError resp.body)) ∧
      (resp.status_code = 200 →
        (get_treelist (constSession resp) tid units).2 =
          decodeTreelist resp.body)) ∧
    (∀ (resp : Response) (did : Option String),
      (list_treelists (constSession resp) did).1.length = 1 ∧
      (resp.status_code ≠ 200 →
        (list_treelists (constSession resp) did).2 =
          .error (.httpError resp.body)) ∧
      (resp.status_code = 200 →
        (list_treelists (constSession resp) did).2 =
          decodeTreelists resp.body)) ∧
    (∀ (resp : Response) (tid : String) (name description : Option String),
      name.isSome ∨ description.isSome →
      (update_treelist (constSession resp) tid name description).1.length = 1 ∧
      (resp.status_code ≠ 200 →
        (update_treelist (constSession resp) tid name description).2 =
          .error (.httpError resp.body)) ∧
      (resp.status_code = 200 →
        (update_treelist (constSession resp) tid name description).2 =
          decodeTreelist resp.body)) ∧
    (∀ (resp : Response) (tid : String) (did : Option String),
      (delete_treelist (constSession resp) tid did).1.length = 1 ∧
      (resp.status_code ≠ 200 →
        (delete_treelist (constSession resp) tid did).2 =
          .error (.httpError resp.body)) ∧
      (resp.status_code = 200 →
        (delete_treelist (constSession resp) tid did).2 =
          decodeTreelists resp.body)) ∧
    (∀ (resp : Response) (did : Option String),
      (delete_all_treelists (constSession resp) did).1.length = 1 ∧
      (resp.status_code ≠ 200 →
        (delete_all_treelists (constSession resp) did).2 =
          .error (.httpError resp.body)) ∧
      (resp.status_code = 200 →
        (delete_all_treelists (constSession resp) did).2 =
          decodeTreelists resp.body)) ∧
    (∀ (j b : Json), decodeTreelist j ≠ .error (.httpError b)) ∧
    (∀ (j b : Json), decodeTreelists j ≠ .error (.httpError b)) := by
  refine ⟨?_, ?_, ?_, ?_, ?_, ?_,
    decodeTreelist_no_httpError, decodeTreelists_no_httpError⟩
  · intro resp d n de m
    refine ⟨by simp [create_treelist, constSession, apply_ite Prod.fst],
      fun hst => ?_, fun hst => ?_⟩
    · simp only [create_treelist, constSession]
      rw [if_pos hst]
    · simp only [create_treelist, constSession]
      rw [if_neg (not_not_intro hst)]
  · intro resp tid units h
    have hmem : ¬units ∉ ["metric", "imperial"] := by
      rcases h with h | h <;> simp [h]
    refine ⟨?_, fun hst => ?_, fun hst => ?_⟩
    · simp only [get_treelist, constSession]
      rw [if_neg hmem]
      simp [apply_ite Prod.fst]
    · simp only [get_treelist, constSession]
      rw [if_neg hmem, if_pos hst]
    · simp only [get_treelist, constSession]
      rw [if_neg hmem, if_neg (not_not_intro hst)]
  · intro resp did
    refine ⟨by simp [list_treelists, constSession, apply_ite Prod.fst],
      fun hst => ?_, fun hst => ?_⟩
    · simp only [list_treelists, constSession]
      rw [if_pos hst]
    · simp only [list_treelists, constSession]
      rw [if_neg (not_not_intro hst)]
  · intro resp tid name description h
    have hguard : ¬(name.isNone ∧ description.isNone) := by
      cases name <;> cases description <;> simp_all
    refine ⟨?_, fun hst => ?_, fun hst => ?_⟩
    · simp only [update_treelist, constSession]
      rw [if_neg hguard]
      simp [apply_ite Prod.fst]
    · simp only [update_treelist, constSession]
      rw [if_neg hguard, if_pos hst]
    · simp only [update_treelist, constSession]
      rw [if_neg hguard, if_neg (not_not_intro hst)]
  · intro resp tid did
    refine ⟨by simp [delete_treelist, constSession, apply_ite Prod.fst],
      fun hst => ?_, fun hst => ?_⟩
    · simp only [delete_treelist, constSession]
      rw [if_pos hst]
    · simp only [delete_treelist, constSession]
      rw [if_neg (not_not_intro hst)]
  · intro resp did
    refine ⟨by simp [delete_all_treelists, constSession, apply_ite Prod.fst],
      fun hst => ?_, fun hst => ?_⟩
    · simp only [delete_all_treelists, constSession]
      rw [if_pos hst]
    · simp only [delete_all_treelists, constSession]
      rw [if_neg (not_not_intro hst)]

/-- C5 witness: on a 500 response create/get/update/delete surface the
HTTPError with the decoded body; on the documented success code create
and list return the decoded resource(s). -/
theorem treelist_operations_status_code_contract_witness :
    (create_treelist (constSession ⟨500, .obj [("msg", .str "bad")]⟩)
        "d" "n" "de" "random").2 =
      .error (.httpError (.obj [("msg", .str "bad")])) ∧
    (create_treelist (constSession ⟨201, .obj (sampleTreelistJson "a" "b")⟩)
        "d" "n" "de" "random").2 =
      decodeTreelist (.obj (sampleTreelistJson "a" "b")) ∧
    (get_treelist (constSession ⟨500, .obj [("msg", .str "bad")]⟩)
        "tl" "metric").2 =
      .error (.httpError (.obj [("msg", .str "bad")])) ∧
    (list_treelists (constSession ⟨200, .obj [("treelists", .arr [])]⟩)
        none).2 =
      decodeTreelists (.obj [("treelists", .arr [])]) ∧
    (update_treelist (constSession ⟨500, .obj [("msg", .str "bad")]⟩)
        "tl" (some "x") none).2 =
      .error (.httpError (.obj [("msg", .str "bad")])) ∧
    (delete_treelist (constSession ⟨500, .obj [("msg", .str "bad")]⟩)
        "tl" none).2 =
      .error (.httpError (.obj [("msg", .str "bad")])) ∧
    (delete_all_treelists (constSession ⟨500, .obj [("msg", .str "bad")]⟩)
        none).2 =
      .error (.httpError (.obj [("msg", .str "bad")])) :=
  ⟨((treelist_operations_status_code_contract.1
      ⟨500, .obj [("msg", .str "bad")]⟩ "d" "n" "de" "random").2.1 (by decide)),
   ((treelist_operations_status_code_contract.1
      ⟨201, .obj (sampleTreelistJson "a" "b")⟩ "d" "n" "de" "random").2.2 rfl),
   ((treelist_operations_status_code_contract.2.1
      ⟨500, .obj [("msg", .str "bad")]⟩ "tl" "metric" (Or.inl rfl)).2.1
        (by decide)),
   ((treelist_operations_status_code_contract.2.2.1
      ⟨200, .obj [("treelists", .arr [])]⟩ none).2.2 rfl),
   ((treelist_operations_status_code_contract.2.2.2.1
      ⟨500, .obj [("msg", .str "bad")]⟩ "tl" (some "x") none (Or.inl rfl)).2.1
        (by decide)),
   ((treelist_operations_status_code_contract.2.2.2.2.1
      ⟨500, .obj [("msg", .str "bad")]⟩ "tl" none).2.1 (by decide)),
   ((treelist_operations_status_code_contract.2.2.2.2.2.1
      ⟨500, .obj [("msg", .str "bad")]⟩ none).2.1 (by decide))⟩
